import Mathlib

/-!
# LuxSole — procedural shoe subsystem, shallow embedding

This file embeds, in Lean 4, the procedural 3D-shoe subsystem of the LuxSole
repository: the material factories (`client/src/utils/three/materials.ts` and
`advancedMaterials.ts`), the geometry factory (`shoeGeometries.ts`), the
LOD/transition controller and per-frame uniform updater of
`client/src/models/ShoeModel.tsx`, and the anisotropic fragment shader
(`client/src/shaders/anisotropic.frag.glsl`).

Modelling conventions:
* TypeScript string-union enums (`ShoeType`, `MaterialType`, `LODLevel`) are
  modelled as `String`, so that the `default` branches of the source `switch`
  statements (reachable in JS through unchecked casts) are part of the model.
* JS numbers are modelled as `ℚ`.  GLSL implementation-defined primitives
  (`sqrt`, `cos`, `sin`) are passed in as an explicit parameter record, and a
  varying that carries a NaN component is modelled as `Option` being `none`
  (NaN propagates through `normalize`, so a single marker per vector suffices).
* Three.js objects are modelled structurally: a material is a constructor tag
  plus its parameter/uniform record, a geometry is a primitive plus the list
  of transforms applied to it.
-/

namespace LuxSole

/-- A 3-component vector of rationals (models `THREE.Vector3` and `vec3`,
and also `THREE.Color` with fields read as r/g/b channels). -/
structure Vec3 where
  x : ℚ
  y : ℚ
  z : ℚ
deriving DecidableEq, Repr

def Vec3.add (a b : Vec3) : Vec3 := ⟨a.x + b.x, a.y + b.y, a.z + b.z⟩

def Vec3.sub (a b : Vec3) : Vec3 := ⟨a.x - b.x, a.y - b.y, a.z - b.z⟩

def Vec3.smul (k : ℚ) (a : Vec3) : Vec3 := ⟨k * a.x, k * a.y, k * a.z⟩

def Vec3.dot (a b : Vec3) : ℚ := a.x * b.x + a.y * b.y + a.z * b.z

def Vec3.cross (a b : Vec3) : Vec3 :=
  ⟨a.y * b.z - a.z * b.y, a.z * b.x - a.x * b.z, a.x * b.y - a.y * b.x⟩

/-- Value of one hex digit (models the digit handling of `THREE.Color`'s
hex-string parser; non-digits read as 0). -/
def hexDigit (c : Char) : Nat :=
  if '0' ≤ c ∧ c ≤ '9' then c.toNat - 48
  else if 'a' ≤ c ∧ c ≤ 'f' then c.toNat - 87
  else if 'A' ≤ c ∧ c ≤ 'F' then c.toNat - 55
  else 0

/-- `new THREE.Color("#RRGGBB")`: normalized channels; any other string keeps
the default white color. -/
def threeColor (s : String) : Vec3 :=
  match s.toList with
  | ['#', r1, r2, g1, g2, b1, b2] =>
      ⟨(16 * hexDigit r1 + hexDigit r2 : ℚ) / 255,
       (16 * hexDigit g1 + hexDigit g2 : ℚ) / 255,
       (16 * hexDigit b1 + hexDigit b2 : ℚ) / 255⟩
  | _ => ⟨1, 1, 1⟩

/-! ## Material instances (the renderer-native objects the factories build) -/

/-- Uniforms of the iridescent `THREE.ShaderMaterial`
(`createIridescentMaterial`, advancedMaterials.ts lines 35–47).  Note: this
uniform map has **no** `lightPosition` entry. -/
structure IridescentUniforms where
  baseColor : Vec3
  iridescentIntensity : ℚ
  iridescentScale : ℚ
  metalness : ℚ
  roughness : ℚ
  viewPosition : Vec3
deriving DecidableEq, Repr

/-- Uniforms of the subsurface `THREE.ShaderMaterial` (`createSubsurfaceMaterial`). -/
structure SubsurfaceUniforms where
  baseColor : Vec3
  subsurfaceColor : Vec3
  subsurfaceIntensity : ℚ
  thickness : ℚ
  lightPosition : Vec3
  viewPosition : Vec3
  distortion : ℚ
  power : ℚ
  scale : ℚ
deriving DecidableEq, Repr

/-- Uniforms of the anisotropic `THREE.ShaderMaterial` (`createAnisotropicMaterial`). -/
structure AnisotropicUniforms where
  baseColor : Vec3
  specularColor : Vec3
  roughnessX : ℚ
  roughnessY : ℚ
  specularIntensity : ℚ
  lightPosition : Vec3
  viewPosition : Vec3
  anisotropicRotation : ℚ
deriving DecidableEq, Repr

/-- Parameters of a `THREE.MeshStandardMaterial` as set by `createStandardMaterial`
(advancedMaterials.ts lines 181–221); Three.js defaults for fields the spread
leaves unset: white color, roughness 1, metalness 0, envMapIntensity 1. -/
structure StandardParams where
  color : Vec3 := ⟨1, 1, 1⟩
  roughness : ℚ := 1
  metalness : ℚ := 0
  envMapIntensity : ℚ := 1
deriving DecidableEq, Repr

/-- Parameters of a `THREE.MeshPhysicalMaterial` as set by `createShoeMaterial`
(materials.ts lines 63–95); clearcoat/sheen fields keep their Three.js
defaults unless the config branch assigns them. -/
structure PhysicalParams where
  color : Vec3
  roughness : ℚ
  metalness : ℚ
  envMapIntensity : ℚ
  clearcoat : ℚ := 0
  clearcoatRoughness : ℚ := 0
  sheen : ℚ := 0
  sheenRoughness : ℚ := 1
  sheenColor : Vec3 := ⟨0, 0, 0⟩
deriving DecidableEq, Repr

/-- A constructed Three.js material: the constructor that ran plus its
parameters/uniforms. -/
inductive ThreeMaterial where
  | iridescent (u : IridescentUniforms)
  | subsurface (u : SubsurfaceUniforms)
  | anisotropic (u : AnisotropicUniforms)
  | meshStandard (p : StandardParams)
  | meshPhysical (p : PhysicalParams)
deriving DecidableEq, Repr

/-! ## materials.ts (src/unnamed/part_004): `MATERIAL_CONFIGS` and `createShoeMaterial` -/

/-- One entry of `MATERIAL_CONFIGS` (materials.ts lines 9–18): optional fields
model the optional keys of the TS interface. -/
structure MaterialConfig where
  roughness : ℚ
  metalness : ℚ
  clearcoat : Option ℚ := none
  clearcoatRoughness : Option ℚ := none
  sheen : Option ℚ := none
  sheenRoughness : Option ℚ := none
  sheenColor : Option Vec3 := none
  anisotropy : Option ℚ := none
deriving DecidableEq, Repr

/-- `MATERIAL_CONFIGS` (materials.ts lines 20–55).  The record lookup
`MATERIAL_CONFIGS[materialType]` yields `undefined` (here `none`) for a label
outside the four keys. -/
def MATERIAL_CONFIGS (label : String) : Option MaterialConfig :=
  if label = "leather" then
    some { roughness := 0.4, metalness := 0.1, clearcoat := some 0.3,
           clearcoatRoughness := some 0.3 }
  else if label = "nubuck" then
    some { roughness := 0.9, metalness := 0.0, sheen := some 0.5,
           sheenRoughness := some 0.8, sheenColor := some ⟨0.9, 0.9, 0.9⟩ }
  else if label = "glint" then
    some { roughness := 0.2, metalness := 0.8, clearcoat := some 0.5,
           clearcoatRoughness := some 0.1, anisotropy := some 0.7 }
  else if label = "knit" then
    some { roughness := 0.7, metalness := 0.0, sheen := some 0.8,
           sheenRoughness := some 0.6, sheenColor := some ⟨0.95, 0.95, 0.95⟩ }
  else none

/-- `createShoeMaterial` (materials.ts lines 63–95).  For a label outside the
table, `config` is `undefined` and the subsequent `config.roughness` access
throws a `TypeError` in JS, modelled as `Except.error`. -/
def createShoeMaterial (materialType : String) (baseColor : Vec3) :
    Except String ThreeMaterial :=
  match MATERIAL_CONFIGS materialType with
  | none => .error "TypeError: cannot read roughness of undefined"
  | some config =>
      let base : PhysicalParams :=
        { color := baseColor, roughness := config.roughness,
          metalness := config.metalness, envMapIntensity := 1.5 }
      -- Apply clearcoat for glossy materials
      let withCc : PhysicalParams :=
        match config.clearcoat with
        | some cc =>
            { base with
              clearcoat := cc,
              clearcoatRoughness := (config.clearcoatRoughness.getD 0) }
        | none => base
      -- Apply sheen for fabric-like materials
      let withSheen : PhysicalParams :=
        match config.sheen with
        | some sh =>
            let s1 :=
              { withCc with
                sheen := sh,
                sheenRoughness := (config.sheenRoughness.getD 0.5) }
            match config.sheenColor with
            | some sc => { s1 with sheenColor := sc }
            | none => s1
        | none => withCc
      .ok (.meshPhysical withSheen)

/-! ## advancedMaterials.ts (src/unnamed/part_007) -/

/-- Options object of `createIridescentMaterial`; `none` models an absent key. -/
structure IridescentOptions where
  intensity : Option ℚ := none
  scale : Option ℚ := none
  metalness : Option ℚ := none
  roughness : Option ℚ := none

/-- `createIridescentMaterial` (advancedMaterials.ts lines 24–48). -/
def createIridescentMaterial (baseColor : Vec3) (options : IridescentOptions) :
    ThreeMaterial :=
  .iridescent
    { baseColor := baseColor,
      iridescentIntensity := options.intensity.getD 0.5,
      iridescentScale := options.scale.getD 2.0,
      metalness := options.metalness.getD 0.8,
      roughness := options.roughness.getD 0.3,
      viewPosition := ⟨0, 0, 5⟩ }

/-- Options object of `createSubsurfaceMaterial`. -/
structure SubsurfaceOptions where
  subsurfaceColor : Option Vec3 := none
  intensity : Option ℚ := none
  thickness : Option ℚ := none
  lightPosition : Option Vec3 := none
  distortion : Option ℚ := none
  power : Option ℚ := none
  scale : Option ℚ := none

/-- `createSubsurfaceMaterial` (advancedMaterials.ts lines 53–83);
`"#ffccaa"` = (255, 204, 170)/255. -/
def createSubsurfaceMaterial (baseColor : Vec3) (options : SubsurfaceOptions) :
    ThreeMaterial :=
  .subsurface
    { baseColor := baseColor,
      subsurfaceColor := options.subsurfaceColor.getD (threeColor "#ffccaa"),
      subsurfaceIntensity := options.intensity.getD 0.7,
      thickness := options.thickness.getD 0.5,
      lightPosition := options.lightPosition.getD ⟨5, 8, 5⟩,
      viewPosition := ⟨0, 0, 5⟩,
      distortion := options.distortion.getD 0.3,
      power := options.power.getD 2.0,
      scale := options.scale.getD 1.0 }

/-- Options object of `createAnisotropicMaterial`. -/
structure AnisotropicOptions where
  specularColor : Option Vec3 := none
  roughnessX : Option ℚ := none
  roughnessY : Option ℚ := none
  intensity : Option ℚ := none
  lightPosition : Option Vec3 := none
  rotation : Option ℚ := none

/-- `createAnisotropicMaterial` (advancedMaterials.ts lines 88–118). -/
def createAnisotropicMaterial (baseColor : Vec3) (options : AnisotropicOptions) :
    ThreeMaterial :=
  .anisotropic
    { baseColor := baseColor,
      specularColor := options.specularColor.getD ⟨1, 1, 1⟩,
      roughnessX := options.roughnessX.getD 0.3,
      roughnessY := options.roughnessY.getD 0.6,
      specularIntensity := options.intensity.getD 1.0,
      lightPosition := options.lightPosition.getD ⟨5, 8, 5⟩,
      viewPosition := ⟨0, 0, 5⟩,
      anisotropicRotation := options.rotation.getD 0.0 }

/-- The local `materialConfigs` record of `createStandardMaterial`
(advancedMaterials.ts lines 188–213); every entry also sets `color := baseColor`. -/
def standardMaterialConfigs (label : String) (baseColor : Vec3) :
    Option StandardParams :=
  if label = "leather" then
    some { color := baseColor, roughness := 0.6, metalness := 0.1, envMapIntensity := 0.4 }
  else if label = "nubuck" then
    some { color := baseColor, roughness := 0.9, metalness := 0.0, envMapIntensity := 0.2 }
  else if label = "glint" then
    some { color := baseColor, roughness := 0.2, metalness := 0.9, envMapIntensity := 1.0 }
  else if label = "knit" then
    some { color := baseColor, roughness := 0.7, metalness := 0.0, envMapIntensity := 0.3 }
  else none

/-- `createStandardMaterial` (advancedMaterials.ts lines 181–221).  The JS
spread `{...config}` of an `undefined` config contributes nothing, so an
unknown label yields a `MeshStandardMaterial` with all defaults. -/
def createStandardMaterial (materialType : String) (color : String) :
    ThreeMaterial :=
  let baseColor := threeColor color
  match standardMaterialConfigs materialType baseColor with
  | some config => .meshStandard config
  | none => .meshStandard {}

/-- `createAdvancedShoeMaterial` (advancedMaterials.ts lines 123–176): the
per-label dispatch to the three shader constructors, standard fallback for
`useAdvancedShaders = false` and for unknown labels. -/
def createAdvancedShoeMaterial (materialType : String) (color : String)
    (useAdvancedShaders : Bool := true) : ThreeMaterial :=
  if !useAdvancedShaders then
    -- Fallback to standard materials
    createStandardMaterial materialType color
  else
    let baseColor := threeColor color
    if materialType = "leather" then
      -- Leather with subtle anisotropic highlights
      createAnisotropicMaterial baseColor
        { roughnessX := some 0.4, roughnessY := some 0.6,
          intensity := some 0.5, rotation := some 0.25 }
    else if materialType = "nubuck" then
      -- Nubuck with soft subsurface scattering
      createSubsurfaceMaterial baseColor
        { subsurfaceColor := some (Vec3.smul 1.2 baseColor),
          intensity := some 0.4, thickness := some 0.3, power := some 1.5 }
    else if materialType = "glint" then
      -- Metallic with iridescent sheen
      createIridescentMaterial baseColor
        { intensity := some 0.7, scale := some 3.0,
          metalness := some 0.9, roughness := some 0.2 }
    else if materialType = "knit" then
      -- Technical knit with anisotropic fiber pattern
      createAnisotropicMaterial baseColor
        { roughnessX := some 0.6, roughnessY := some 0.2,
          intensity := some 0.3, rotation := some 0.5 }
    else
      createStandardMaterial materialType color

/-! ### Projections used to state the material claims -/

/-- The `(roughnessX, roughnessY)` of an anisotropic shader material. -/
def ThreeMaterial.anisoRoughness : ThreeMaterial → Option (ℚ × ℚ)
  | .anisotropic u => some (u.roughnessX, u.roughnessY)
  | _ => none

/-- The `(power, thickness)` of a subsurface shader material. -/
def ThreeMaterial.subsurfacePowerThickness : ThreeMaterial → Option (ℚ × ℚ)
  | .subsurface u => some (u.power, u.thickness)
  | _ => none

/-- The `(iridescentScale, metalness)` of an iridescent shader material. -/
def ThreeMaterial.iridescentScaleMetalness : ThreeMaterial → Option (ℚ × ℚ)
  | .iridescent u => some (u.iridescentScale, u.metalness)
  | _ => none

/-- Whether the material came from the `MeshStandardMaterial` constructor. -/
def ThreeMaterial.isMeshStandard : ThreeMaterial → Bool
  | .meshStandard _ => true
  | _ => false

/-- The `(roughness, metalness)` of a `MeshStandardMaterial`. -/
def ThreeMaterial.standardRoughMetal : ThreeMaterial → Option (ℚ × ℚ)
  | .meshStandard p => some (p.roughness, p.metalness)
  | _ => none

/-! ## shoeGeometries.ts (src/unnamed/part_005) -/

/-- A geometry transform: the `rotateX/rotateY/rotateZ/translate/scale`
mutations applied to a `BufferGeometry`.  Rotation angles in the source are
rational multiples of `Math.PI`; the stored number is that coefficient. -/
inductive TransformOp where
  | rotateX (piMul : ℚ)
  | rotateY (piMul : ℚ)
  | rotateZ (piMul : ℚ)
  | translate (x y z : ℚ)
  | scale (x y z : ℚ)
deriving DecidableEq, Repr

/-- A Three.js primitive geometry with its constructor arguments (angle
arguments again as coefficients of π). -/
inductive PrimGeom where
  | capsule (radius length : ℚ) (capSegments radialSegments : Nat)
  | sphere (radius : ℚ) (widthSegments heightSegments : Nat)
      (phiStartPiMul phiLengthPiMul : ℚ)
  | box (width height depth : ℚ) (widthSegments heightSegments depthSegments : Nat)
  | torus (radius tube : ℚ) (radialSegments tubularSegments : Nat) (arcPiMul : ℚ)
  | cylinder (radiusTop radiusBottom height : ℚ) (radialSegments : Nat)
deriving DecidableEq, Repr

/-- A built geometry: primitive plus the transforms applied to it, in order. -/
structure GeomDesc where
  prim : PrimGeom
  ops : List TransformOp := []
deriving DecidableEq, Repr

/-- The `ShoeGeometries` interface (shoeGeometries.ts lines 15–26):
eight required named parts, `collar` only for high-top, `sidePanel` for
low-top/running. -/
structure ShoeGeometries where
  body : GeomDesc
  toe : GeomDesc
  heel : GeomDesc
  sole : GeomDesc
  midsole : GeomDesc
  laceArea : GeomDesc
  tongue : GeomDesc
  heelTab : GeomDesc
  collar : Option GeomDesc := none
  sidePanel : Option GeomDesc := none
deriving DecidableEq, Repr

/-- Segment count shared by the three generators:
`high = 32, medium = 16, low = 8`. -/
def lodDetail (lodLevel : String) : Nat :=
  if lodLevel = "high" then 32 else if lodLevel = "medium" then 16 else 8

/-- `createHighTopGeometry` (shoeGeometries.ts lines 31–88). -/
def createHighTopGeometry (lodLevel : String) : ShoeGeometries :=
  let detail := lodDetail lodLevel
  { body :=
      { prim := .capsule 0.45 1.6 (detail / 2) detail,
        ops := [.rotateZ (1/2), .translate 0 0.5 0] },
    toe :=
      { prim := .sphere 0.35 detail (detail / 2) 0 1,
        ops := [.rotateY (1/2), .scale 1 0.8 1.2, .translate 0.8 0.25 0] },
    heel :=
      { prim := .sphere 0.35 detail (detail / 2) 1 1,
        ops := [.rotateY (-(1/2)), .scale 0.9 1.2 1.1, .translate (-0.8) 0.35 0] },
    sole :=
      { prim := .box 1.6 0.2 0.65 (if lodLevel = "high" then 4 else 2) 1
          (if lodLevel = "high" then 2 else 1),
        ops := [.translate 0 0.1 0] },
    midsole :=
      { prim := .box 1.5 0.12 0.6 (if lodLevel = "high" then 4 else 2) 1
          (if lodLevel = "high" then 2 else 1),
        ops := [.translate 0 0.26 0] },
    laceArea :=
      { prim := .box 0.9 0.6 0.35 (if lodLevel = "high" then 3 else 1)
          (if lodLevel = "high" then 3 else 1) 1,
        ops := [.translate 0.1 0.7 0] },
    tongue :=
      { prim := .box 0.45 0.5 0.12 (if lodLevel = "high" then 2 else 1)
          (if lodLevel = "high" then 3 else 1) 1,
        ops := [.rotateX (1/12), .translate 0.1 0.85 0] },
    heelTab :=
      { prim := .box 0.18 0.5 0.35 1 (if lodLevel = "high" then 2 else 1) 1,
        ops := [.translate (-0.9) 0.7 0] },
    collar := some
      { prim := .torus 0.42 0.08 (detail / 4) detail 2,
        ops := [.rotateY (1/2), .translate 0 1.1 0] } }

/-- `createLowTopGeometry` (shoeGeometries.ts lines 93–149). -/
def createLowTopGeometry (lodLevel : String) : ShoeGeometries :=
  let detail := lodDetail lodLevel
  { body :=
      { prim := .capsule 0.4 1.2 (detail / 2) detail,
        ops := [.rotateZ (1/2), .translate 0 0.3 0] },
    toe :=
      { prim := .sphere 0.35 detail (detail / 2) 0 1,
        ops := [.rotateY (1/2), .scale 1 0.8 1.2, .translate 0.6 0.2 0] },
    heel :=
      { prim := .sphere 0.3 detail (detail / 2) 1 1,
        ops := [.rotateY (-(1/2)), .scale 0.8 1 1, .translate (-0.6) 0.25 0] },
    sole :=
      { prim := .box 1.4 0.15 0.6 (if lodLevel = "high" then 4 else 2) 1
          (if lodLevel = "high" then 2 else 1),
        ops := [.translate 0 0.075 0] },
    midsole :=
      { prim := .box 1.3 0.1 0.55 (if lodLevel = "high" then 4 else 2) 1
          (if lodLevel = "high" then 2 else 1),
        ops := [.translate 0 0.2 0] },
    laceArea :=
      { prim := .box 0.8 0.2 0.3 (if lodLevel = "high" then 3 else 1) 1 1,
        ops := [.translate 0.1 0.5 0] },
    tongue :=
      { prim := .box 0.4 0.3 0.1 (if lodLevel = "high" then 2 else 1)
          (if lodLevel = "high" then 2 else 1) 1,
        ops := [.rotateX (1/12), .translate 0.1 0.6 0] },
    heelTab :=
      { prim := .box 0.15 0.4 0.3 1 (if lodLevel = "high" then 2 else 1) 1,
        ops := [.translate (-0.7) 0.5 0] },
    sidePanel := some
      { prim := .box 0.7 0.35 0.02 (if lodLevel = "high" then 2 else 1)
          (if lodLevel = "high" then 2 else 1) 1,
        ops := [.translate 0 0.4 0.32] } }

/-- `createRunningShoeGeometry` (shoeGeometries.ts lines 154–214). -/
def createRunningShoeGeometry (lodLevel : String) : ShoeGeometries :=
  let detail := lodDetail lodLevel
  { body :=
      { prim := .capsule 0.38 1.3 (detail / 2) detail,
        ops := [.rotateZ (1/2), .scale 1 0.9 0.95, .translate 0 0.28 0] },
    toe :=
      { prim := .sphere 0.33 detail (detail / 2) 0 1,
        ops := [.rotateY (1/2), .scale 1.1 0.75 1.15, .translate 0.65 0.22 0] },
    heel :=
      { prim := .sphere 0.28 detail (detail / 2) 1 1,
        ops := [.rotateY (-(1/2)), .scale 0.75 0.95 0.95, .translate (-0.65) 0.24 0] },
    sole :=
      { prim := .box 1.5 0.18 0.55 (if lodLevel = "high" then 4 else 2) 1
          (if lodLevel = "high" then 2 else 1),
        ops := [.scale 1 1 0.95, .translate 0.05 0.09 0] },
    midsole :=
      { prim := .capsule 0.25 1.1 (if lodLevel = "high" then 2 else 1) detail,
        ops := [.rotateZ (1/2), .scale 1 0.5 0.9, .translate 0 0.22 0] },
    laceArea :=
      { prim := .box 0.85 0.18 0.28 (if lodLevel = "high" then 3 else 1) 1 1,
        ops := [.translate 0.12 0.48 0] },
    tongue :=
      { prim := .box 0.38 0.25 0.08 (if lodLevel = "high" then 2 else 1)
          (if lodLevel = "high" then 2 else 1) 1,
        ops := [.rotateX (1/16), .translate 0.12 0.58 0] },
    heelTab :=
      { prim := .box 0.12 0.35 0.28 1 (if lodLevel = "high" then 2 else 1) 1,
        ops := [.translate (-0.75) 0.48 0] },
    sidePanel := some
      { prim := .box 0.75 0.3 0.02 (if lodLevel = "high" then 3 else 1)
          (if lodLevel = "high" then 2 else 1) 1,
        ops := [.translate 0.05 0.38 0.3] } }

/-- `createShoeGeometries` (shoeGeometries.ts lines 219–230): the dispatch
switch; the `default` branch falls back to the low-top generator. -/
def createShoeGeometries (shoeType : String) (lodLevel : String) : ShoeGeometries :=
  if shoeType = "high-top" then createHighTopGeometry lodLevel
  else if shoeType = "low-top" then createLowTopGeometry lodLevel
  else if shoeType = "running" then createRunningShoeGeometry lodLevel
  else createLowTopGeometry lodLevel

/-! ## ShoeModel.tsx — LOD level assembly (`buildLODLevel`, lines 124–198) -/

/-- Name of one mesh added to a LOD-level group by `buildLODLevel`. -/
inductive PartName where
  | body | toe | heel | sole | midsole | laceArea | tongue | heelTab
  | collar | sidePanelL | sidePanelR
  | laceStrand (i : Nat)
  | logo
deriving DecidableEq, Repr

/-- Which of the five persistent materials a mesh references
(base, accent, sole, lace, logo — ShoeModel.tsx lines 60–110). -/
inductive MatSlot where
  | base | accent | soleMat | laceMat | logoMat
deriving DecidableEq, Repr

/-- `buildLODLevel` (ShoeModel.tsx lines 128–190): the list of meshes of one
LOD-level group, each with the material slot it references, in insertion
order. -/
def buildLODLevel (shoeType : String) (lodLevel : String) (addDetails : Bool) :
    List (PartName × MatSlot) :=
  let geoms := createShoeGeometries shoeType lodLevel
  -- Main shoe parts
  let mainParts : List (PartName × MatSlot) :=
    [(.body, .base), (.toe, .base), (.heel, .base), (.sole, .soleMat),
     (.midsole, .accent), (.laceArea, .accent), (.tongue, .base),
     (.heelTab, .accent)]
  -- Optional parts (high-top collar, side panels; side panel mirrored)
  let withCollar := mainParts ++
    (match geoms.collar with
     | some _ => [((.collar : PartName), (.accent : MatSlot))]
     | none => [])
  let withSide := withCollar ++
    (match geoms.sidePanel with
     | some _ => [((.sidePanelL : PartName), (.base : MatSlot)), (.sidePanelR, .base)]
     | none => [])
  -- Add lace details for high LOD
  let laceCount : Nat :=
    if shoeType = "high-top" then 7 else if shoeType = "running" then 4 else 5
  let withLaces := withSide ++
    (if addDetails then
       (List.range laceCount).map (fun i => ((.laceStrand i : PartName), (.laceMat : MatSlot)))
     else [])
  -- Add logo
  withLaces ++
    (if addDetails || lodLevel = "medium" then
       [((.logo : PartName), (.logoMat : MatSlot))]
     else [])

/-- The three `lod.addLevel` calls (ShoeModel.tsx lines 193–195): tier name,
switch distance, `addDetails` flag, and the built mesh list. -/
def shoeModelLODLevels (shoeType : String) :
    List (String × ℚ × List (PartName × MatSlot)) :=
  [("high", 0, buildLODLevel shoeType "high" true),
   ("medium", 5, buildLODLevel shoeType "medium" false),
   ("low", 10, buildLODLevel shoeType "low" false)]

/-- Whether a mesh with the given part name is in the group. -/
def containsPart (meshes : List (PartName × MatSlot)) (p : PartName) : Bool :=
  meshes.any (fun e => e.1 == p)

/-- Whether the group holds any individual lace-strand cylinder. -/
def hasLaceStrands (meshes : List (PartName × MatSlot)) : Bool :=
  meshes.any (fun e => match e.1 with | .laceStrand _ => true | _ => false)

/-! ## ShoeModel.tsx — transition controller

State of the component as far as the silhouette transition is concerned:
the `shoeType` prop (`requested`), the `currentShoeType` React state
(`current`, i.e. which silhouette's geometry set is mounted), the
`transitionRef` record (`progress`, `tFrom`, `tTo` — renamed from the
source's `from`/`to`, which are Lean keywords), and the `opacity`/
`transparent` fields of the materials of the mounted group (one list entry
per material; the traverse writes the same value into each). -/

structure ShoeModelState where
  requested : String
  current : String
  progress : ℚ
  tFrom : String
  tTo : String
  matOpacity : List ℚ
  matTransparent : List Bool
deriving DecidableEq, Repr

/-- The transition `useEffect` (ShoeModel.tsx lines 113–121): runs after any
render in which `shoeType` or `currentShoeType` changed; when they differ it
rewrites `transitionRef` to `{progress: 0, from: currentShoeType, to: shoeType}`. -/
def runTransitionEffect (s : ShoeModelState) : ShoeModelState :=
  if s.requested ≠ s.current then
    { s with progress := 0, tFrom := s.current, tTo := s.requested }
  else s

/-- A change of the `shoeType` prop, followed by the effect it triggers. -/
def setShoeType (s : ShoeModelState) (shoeType : String) : ShoeModelState :=
  runTransitionEffect { s with requested := shoeType }

/-- The triangular opacity ramp of the crossfade
(ShoeModel.tsx line 215): `1 - Math.abs(progress - 0.5) * 2`. -/
def transitionOpacity (progress : ℚ) : ℚ :=
  1 - |progress - 0.5| * 2

/-- One `useFrame` callback of the transition block (ShoeModel.tsx lines
210–228).  Returns the successor state together with the `(opacity,
transparent)` value written into every material of the mounted group this
frame (`none` when the transition is inert, `progress ≥ 1`).  A midpoint
swap runs `setCurrentShoeType`, whose re-render re-runs the transition
effect. -/
def frameStep (s : ShoeModelState) (delta : ℚ) : ShoeModelState × Option (ℚ × Bool) :=
  if s.progress < 1 then
    let p := min 1 (s.progress + delta * 2)
    -- Smooth crossfade using opacity
    let opacity := transitionOpacity p
    let s1 : ShoeModelState :=
      { s with
        progress := p,
        matOpacity := s.matOpacity.map (fun _ => opacity),
        matTransparent := s.matTransparent.map (fun _ => opacity < 1) }
    -- Switch shoe type at midpoint
    let s2 :=
      if 0.5 ≤ p ∧ s1.current ≠ s1.tTo then
        runTransitionEffect { s1 with current := s1.tTo }
      else s1
    (s2, some (opacity, decide (opacity < 1)))
  else (s, none)

/-- A sequence of frames with the given elapsed times (writes dropped). -/
def runFrames (s : ShoeModelState) (deltas : List ℚ) : ShoeModelState :=
  deltas.foldl (fun st d => (frameStep st d).1) s

/-- The `Stable(t)` state of the spec's state machine: the transition is
inert and silhouette `t` is mounted as the transition target. -/
def StableAt (s : ShoeModelState) (t : String) : Prop :=
  1 ≤ s.progress ∧ s.current = t ∧ s.tTo = t

/-! ## ShoeModel.tsx — per-frame uniform updater (lines 231–263) -/

/-- The Three.js light classes an `Object3D` in the scene may instantiate. -/
inductive LightKind where
  | spot | directional | point | ambient | hemisphere | rectArea
deriving DecidableEq, Repr

/-- A light in the scene, in `scene.traverse` order: its class, `intensity`
scalar and world position. -/
structure SceneLight where
  kind : LightKind
  intensity : ℚ
  position : Vec3
deriving DecidableEq, Repr

/-- The `instanceof THREE.SpotLight || instanceof THREE.DirectionalLight`
filter of the scan. -/
def isScannedLight (l : SceneLight) : Bool :=
  l.kind == .spot || l.kind == .directional

/-- One step of the brightest-light scan: the fold state is
`(maxIntensity, brightestLight)`. -/
def scanStep (acc : ℚ × Option SceneLight) (obj : SceneLight) :
    ℚ × Option SceneLight :=
  if isScannedLight obj then
    if acc.1 < obj.intensity then (obj.intensity, some obj) else acc
  else acc

/-- The `scene.traverse` scan (ShoeModel.tsx lines 236–246), starting from
`maxIntensity = 0`, `brightestLight = null`. -/
def findBrightestLight (sceneLights : List SceneLight) : Option SceneLight :=
  (sceneLights.foldl scanStep (0, none)).2

/-- The spec's words for the same selection ("scan all lights currently in
the scene, select the one with the highest intensity scalar"): the same
strict-max fold but over every light, with no class filter.  Second
definition kept for comparison with the code's `findBrightestLight`. -/
def claimBrightestAnyLight (sceneLights : List SceneLight) : Option SceneLight :=
  (sceneLights.foldl
    (fun acc obj =>
      if acc.1 < obj.intensity then (obj.intensity, some obj) else acc)
    (0, none)).2

/-- The per-material uniform write (ShoeModel.tsx lines 253–262): a
`ShaderMaterial`'s `lightPosition` and `viewPosition` uniforms are
overwritten when present; the iridescent uniform map has no `lightPosition`
entry, and non-shader materials are untouched. -/
def updateMaterialUniforms (lightPos viewPos : Vec3) :
    ThreeMaterial → ThreeMaterial
  | .anisotropic u =>
      .anisotropic { u with lightPosition := lightPos, viewPosition := viewPos }
  | .subsurface u =>
      .subsurface { u with lightPosition := lightPos, viewPosition := viewPos }
  | .iridescent u =>
      .iridescent { u with viewPosition := viewPos }
  | m => m

/-- The whole advanced-shader block of `useFrame` (lines 231–263):
`prevLightPos` is the content of `lightPosRef` (kept when no spot or
directional light is found), `cameraPos` the camera world position; returns
the new `lightPosRef` content and the updated `[baseMaterial,
accentMaterial]` list. -/
def advancedShaderFrameUpdate (prevLightPos cameraPos : Vec3)
    (sceneLights : List SceneLight) (mats : List ThreeMaterial) :
    Vec3 × List ThreeMaterial :=
  let lightPos :=
    match findBrightestLight sceneLights with
    | some l => l.position
    | none => prevLightPos
  (lightPos, mats.map (updateMaterialUniforms lightPos cameraPos))

/-! ## anisotropic.frag.glsl — fragment shader

GLSL floats are idealized as `ℚ`; the implementation-defined primitives
`sqrt`, `cos`, `sin` are a parameter record, so every theorem below holds
for every implementation of them.  A varying vector that carries a NaN
component is `none`: NaN is absorbing through `normalize` and `isnan`, so
one marker per vector captures the guard's behaviour. -/

/-- Implementation-defined GLSL numeric primitives. -/
structure GlslPrims where
  sqrt : ℚ → ℚ
  cos : ℚ → ℚ
  sin : ℚ → ℚ

/-- GLSL `normalize`: `v / length(v)`. -/
def glslNormalize (g : GlslPrims) (v : Vec3) : Vec3 :=
  Vec3.smul (1 / g.sqrt (Vec3.dot v v)) v

/-- GLSL `clamp(x, lo, hi) = min(max(x, lo), hi)`. -/
def glslClamp (x lo hi : ℚ) : ℚ :=
  min (max x lo) hi

/-- `anisotropicGGX` (anisotropic.frag.glsl lines 19–31): the anisotropic
GGX distribution with its division-by-zero protection. -/
def anisotropicGGX (ndoth hdotx hdoty ax ay : ℚ) : ℚ :=
  let a2 := ax * ay
  let v : Vec3 := ⟨ay * hdotx, ax * hdoty, a2 * ndoth⟩
  let v2 := Vec3.dot v v
  -- Protect against division by zero
  if v2 < 0.0001 then 0
  else
    let w2 := a2 / v2
    a2 * w2 * w2 / 3.14159265359

/-- The varying inputs of one fragment; `vWorldTangent`/`vWorldBitangent`
are `none` when the interpolated vector carries a NaN component. -/
structure AnisoVaryings where
  vWorldNormal : Vec3
  vWorldTangent : Option Vec3
  vWorldBitangent : Option Vec3
  vWorldPosition : Vec3
  vUv : ℚ × ℚ

/-- GLSL `clamp` on a `vec3` with scalar bounds. -/
def glslClampVec (v : Vec3) (lo hi : ℚ) : Vec3 :=
  ⟨glslClamp v.x lo hi, glslClamp v.y lo hi, glslClamp v.z lo hi⟩

/-- The lit path of `main` (anisotropic.frag.glsl lines 44–80), given the
already-normalized tangent basis: returns the clamped specular term and the
final clamped color. -/
def anisotropicShadeLit (g : GlslPrims) (u : AnisotropicUniforms)
    (vWorldPosition : Vec3) (normal tangent bitangent : Vec3) : ℚ × Vec3 :=
  -- Rotate tangent frame for anisotropic direction
  let rotation := u.anisotropicRotation * 3.14159265359
  let rotatedTangent :=
    Vec3.add (Vec3.smul (g.cos rotation) tangent) (Vec3.smul (g.sin rotation) bitangent)
  let rotatedBitangent := Vec3.cross normal rotatedTangent
  -- All vectors in world space
  let viewDir := glslNormalize g (Vec3.sub u.viewPosition vWorldPosition)
  let lightDir := glslNormalize g (Vec3.sub u.lightPosition vWorldPosition)
  let halfDir := glslNormalize g (Vec3.add lightDir viewDir)
  -- Anisotropic specular calculation
  let ndoth := max 0 (Vec3.dot normal halfDir)
  let hdotx := Vec3.dot halfDir rotatedTangent
  let hdoty := Vec3.dot halfDir rotatedBitangent
  -- Roughness values (lower = sharper highlight)
  let ax := max 0.001 (u.roughnessX * u.roughnessX)
  let ay := max 0.001 (u.roughnessY * u.roughnessY)
  -- Clamp specular to prevent fireflies
  let specular := min (anisotropicGGX ndoth hdotx hdoty ax ay) 10
  let specularContribution := Vec3.smul (specular * u.specularIntensity) u.specularColor
  -- Diffuse component
  let ndotl := max 0 (Vec3.dot normal lightDir)
  let diffuseColor := Vec3.smul ndotl u.baseColor
  -- Combine with ambient
  let finalColor :=
    Vec3.add (Vec3.add diffuseColor specularContribution) (Vec3.smul 0.15 u.baseColor)
  -- Clamp to prevent out-of-range colors
  (specular, glslClampVec finalColor 0 1.5)

/-- `main` (anisotropic.frag.glsl lines 33–81): NaN guard on the tangent
basis, then the lit path; output is `(gl_FragColor.rgb, gl_FragColor.a)`. -/
def anisotropicFragMain (g : GlslPrims) (u : AnisotropicUniforms)
    (inp : AnisoVaryings) : Vec3 × ℚ :=
  let normal := glslNormalize g inp.vWorldNormal
  match inp.vWorldTangent, inp.vWorldBitangent with
  | some t, some b =>
      ((anisotropicShadeLit g u inp.vWorldPosition normal
          (glslNormalize g t) (glslNormalize g b)).2, 1)
  | _, _ =>
      -- Additional NaN check: flat half-lit fallback
      (Vec3.smul 0.5 u.baseColor, 1)

/-- The `(roughness, metalness)` of a `MeshPhysicalMaterial`. -/
def ThreeMaterial.physicalRoughMetal : ThreeMaterial → Option (ℚ × ℚ)
  | .meshPhysical p => some (p.roughness, p.metalness)
  | _ => none

/-- The content of a material's `lightPosition` uniform, when that uniform
exists: only the anisotropic and subsurface shader materials have one. -/
def ThreeMaterial.lightPositionUniform : ThreeMaterial → Option Vec3
  | .anisotropic u => some u.lightPosition
  | .subsurface u => some u.lightPosition
  | _ => none

/-- The content of a material's `viewPosition` uniform, when that uniform
exists: all three shader materials have one. -/
def ThreeMaterial.viewPositionUniform : ThreeMaterial → Option Vec3
  | .anisotropic u => some u.viewPosition
  | .subsurface u => some u.viewPosition
  | .iridescent u => some u.viewPosition
  | _ => none

/-! # Claims -/

/-- **C1.** For every color, creating a material with `useAdvancedShaders = true`
dispatches by material label exactly per the fixed table: `leather` goes to
the anisotropic constructor with `roughnessX = 0.4`, `roughnessY = 0.6`;
`knit` to the anisotropic constructor with `roughnessX = 0.6`,
`roughnessY = 0.2`; `nubuck` to the subsurface constructor with
`power = 1.5`, `thickness = 0.3`; `glint` to the iridescent constructor with
`scale = 3.0`, `metalness = 0.9`; unknown labels fall back to the
standard-material path. -/
theorem advanced_material_dispatch (color : String) (label : String)
    (h1 : label ≠ "leather") (h2 : label ≠ "nubuck")
    (h3 : label ≠ "glint") (h4 : label ≠ "knit") :
    (createAdvancedShoeMaterial "leather" color true).anisoRoughness = some (0.4, 0.6)
  ∧ (createAdvancedShoeMaterial "knit" color true).anisoRoughness = some (0.6, 0.2)
  ∧ (createAdvancedShoeMaterial "nubuck" color true).subsurfacePowerThickness
      = some (1.5, 0.3)
  ∧ (createAdvancedShoeMaterial "glint" color true).iridescentScaleMetalness
      = some (3.0, 0.9)
  ∧ createAdvancedShoeMaterial label color true = createStandardMaterial label color := by
  refine ⟨rfl, rfl, rfl, rfl, ?_⟩
  simp [createAdvancedShoeMaterial, h1, h2, h3, h4]

/-- Witness for C1 at a concrete color and unknown label. -/
theorem advanced_material_dispatch_witness :
    (createAdvancedShoeMaterial "leather" "#E1B75A" true).anisoRoughness = some (0.4, 0.6)
  ∧ createAdvancedShoeMaterial "velvet" "#E1B75A" true
      = createStandardMaterial "velvet" "#E1B75A" := by
  have h := advanced_material_dispatch "#E1B75A" "velvet"
    (by decide) (by decide) (by decide) (by decide)
  exact ⟨h.1, h.2.2.2.2⟩

/-- **C2.** For every material label and every pair of colors, creating a
material with `useAdvancedShaders = false` returns roughness and metalness
values that depend only on the label, taken from the static lookup table;
in particular, for label `glint` the returned standard PBR material has
`roughness = 0.2` and `metalness = 0.9`.  (The `MeshPhysicalMaterial` path
of materials.ts is likewise color-independent.) -/
theorem standard_material_label_only (c1 c2 : String) (label : String)
    (hmem : label ∈ (["leather", "nubuck", "glint", "knit"] : List String)) :
    (createAdvancedShoeMaterial label c1 false).standardRoughMetal
      = (createAdvancedShoeMaterial label c2 false).standardRoughMetal
  ∧ (createAdvancedShoeMaterial label c1 false).standardRoughMetal
      = (standardMaterialConfigs label (threeColor c1)).map
          (fun p => (p.roughness, p.metalness))
  ∧ (createAdvancedShoeMaterial "glint" c1 false).isMeshStandard = true
  ∧ (createAdvancedShoeMaterial "glint" c1 false).standardRoughMetal = some (0.2, 0.9)
  ∧ (createShoeMaterial label (threeColor c1)).map ThreeMaterial.physicalRoughMetal
      = (createShoeMaterial label (threeColor c2)).map ThreeMaterial.physicalRoughMetal := by
  fin_cases hmem <;> exact ⟨rfl, rfl, rfl, rfl, rfl⟩

/-- Witness for C2: the spec's end-to-end scenario, label `glint`, base color
`#E1B75A`, advanced shaders off. -/
theorem standard_material_label_only_witness :
    (createAdvancedShoeMaterial "glint" "#E1B75A" false).isMeshStandard = true
  ∧ (createAdvancedShoeMaterial "glint" "#E1B75A" false).standardRoughMetal
      = some (0.2, 0.9) := by
  have h := standard_material_label_only "#E1B75A" "#0F3F2B" "glint" (by decide)
  exact ⟨h.2.2.1, h.2.2.2.1⟩

/-- **C6.** For every (silhouette, lodTier) pair as assembled by the three
`lod.addLevel` calls, the built group contains the `laceArea`, `tongue` and
`heelTab` parts; individual lace-strand cylinders are present exactly at the
high tier; the logo mesh is present at the high and medium tiers but not at
the low tier; the collar part is present exactly for the high-top
silhouette. -/
theorem lod_level_parts :
    ∀ st ∈ (["high-top", "low-top", "running"] : List String),
      ∀ lv ∈ shoeModelLODLevels st,
        containsPart lv.2.2 .laceArea = true
      ∧ containsPart lv.2.2 .tongue = true
      ∧ containsPart lv.2.2 .heelTab = true
      ∧ (hasLaceStrands lv.2.2 = true ↔ lv.1 = "high")
      ∧ (containsPart lv.2.2 .logo = true ↔ (lv.1 = "high" ∨ lv.1 = "medium"))
      ∧ (containsPart lv.2.2 .collar = true ↔ st = "high-top") := by
  decide

/-- Witness for C6 at the high-top silhouette, high tier. -/
theorem lod_level_parts_witness :
    containsPart (buildLODLevel "high-top" "high" true) .laceArea = true
  ∧ (containsPart (buildLODLevel "high-top" "high" true) .collar = true ↔
      ("high-top" : String) = "high-top") := by
  have h := lod_level_parts "high-top" (by decide)
    ("high", 0, buildLODLevel "high-top" "high" true) (by decide)
  exact ⟨h.1, h.2.2.2.2.2⟩

/-- **C8 (counterexample).** The claim says an unrecognized material label
makes material creation on the non-advanced path return a standard material
rather than throwing; but `createShoeMaterial` (materials.ts) reads
`config.roughness` off the `undefined` lookup result and throws a
`TypeError` for any label outside the table. -/
theorem unknown_label_physical_material_throws :
    createShoeMaterial "velvet" (threeColor "#E1B75A")
      = Except.error "TypeError: cannot read roughness of undefined" := rfl

/-- **C8 (amended).** For every input at the subsystem boundary: an
unrecognized silhouette value makes `createShoeGeometries` return the
low-top geometry, and an unrecognized material label makes
`createAdvancedShoeMaterial` (with advanced shaders on or off) return a
standard material rather than throwing; the `MeshPhysicalMaterial` creator
`createShoeMaterial`, however, throws a `TypeError` on an unrecognized
label. -/
theorem silent_fallback_behavior (st lod label c : String)
    (hst1 : st ≠ "high-top") (hst2 : st ≠ "low-top") (hst3 : st ≠ "running")
    (hl1 : label ≠ "leather") (hl2 : label ≠ "nubuck")
    (hl3 : label ≠ "glint") (hl4 : label ≠ "knit") :
    createShoeGeometries st lod = createLowTopGeometry lod
  ∧ (createAdvancedShoeMaterial label c true).isMeshStandard = true
  ∧ (createAdvancedShoeMaterial label c false).isMeshStandard = true
  ∧ createShoeMaterial label (threeColor c)
      = Except.error "TypeError: cannot read roughness of undefined" := by
  refine ⟨?_, ?_, ?_, ?_⟩
  · simp [createShoeGeometries, hst1, hst2, hst3]
  · simp [createAdvancedShoeMaterial, createStandardMaterial, standardMaterialConfigs,
      ThreeMaterial.isMeshStandard, hl1, hl2, hl3, hl4]
  · simp [createAdvancedShoeMaterial, createStandardMaterial, standardMaterialConfigs,
      ThreeMaterial.isMeshStandard, hl1, hl2, hl3, hl4]
  · simp [createShoeMaterial, MATERIAL_CONFIGS, hl1, hl2, hl3, hl4]

/-- Witness for the amended C8 at a concrete unknown silhouette and label. -/
theorem silent_fallback_behavior_witness :
    createShoeGeometries "sandal" "high" = createLowTopGeometry "high"
  ∧ (createAdvancedShoeMaterial "velvet" "#E1B75A" true).isMeshStandard = true := by
  have h := silent_fallback_behavior "sandal" "high" "velvet" "#E1B75A"
    (by decide) (by decide) (by decide) (by decide) (by decide) (by decide) (by decide)
  exact ⟨h.1, h.2.1⟩

/-! ### Transition-controller lemmas -/

/-- How one frame changes `progress` when the transition target survives
the frame: the then-branch of `frameStep` takes `progress` to
`min 1 (progress + delta * 2)`, the inert branch leaves it at 1. -/
lemma frameStep_progress_eq (s : ShoeModelState) (d : ℚ)
    (hd : 0 ≤ d) (hp : s.progress ≤ 1)
    (htTo : (frameStep s d).1.tTo = s.tTo) :
    (frameStep s d).1.progress = min 1 (s.progress + d * 2) := by
  by_cases h1 : s.progress < 1
  · by_cases h2 : (0.5 : ℚ) ≤ min 1 (s.progress + d * 2) ∧ s.current ≠ s.tTo
    · by_cases h3 : s.requested ≠ s.tTo
      · exfalso
        apply h3
        have : (frameStep s d).1.tTo = s.requested := by
          simp [frameStep, h1, runTransitionEffect, h2.1, h2.2, h3]
        rw [← htTo, this]
      · push_neg at h3
        simp [frameStep, h1, runTransitionEffect, h2.1, h2.2, h3]
    · simp only [frameStep, h1, if_true, if_pos]
      rw [if_neg h2]
  · have : s.progress = 1 := le_antisymm hp (not_lt.mp h1)
    simp only [frameStep, h1, if_false, if_neg]
    rw [this, min_eq_left (by linarith)]

/-- The mid-flight invariant of a transition towards `target` whose `from`
silhouette is `mounted`: the requested and target silhouettes agree, and the
mounted geometry set is `mounted`'s strictly before the midpoint and
`target`'s from the midpoint on. -/
def MidflightInv (mounted target : String) (u : ShoeModelState) : Prop :=
  u.requested = target ∧ u.tTo = target ∧ u.tFrom = mounted ∧
  0 ≤ u.progress ∧ u.progress ≤ 1 ∧
  (u.progress < 0.5 → u.current = mounted) ∧
  (0.5 ≤ u.progress → u.current = target)

/-- One frame preserves the mid-flight invariant. -/
lemma midflightInv_frameStep (mounted target : String) (u : ShoeModelState)
    (d : ℚ) (hd : 0 ≤ d)
    (hinv : MidflightInv mounted target u) :
    MidflightInv mounted target (frameStep u d).1 := by
  obtain ⟨hreq, htTo, htFrom, h0, h1, hlow, hhigh⟩ := hinv
  by_cases hlt : u.progress < 1
  · set p := min 1 (u.progress + d * 2) with hp
    have hple : p ≤ 1 := min_le_left _ _
    have hpge : u.progress ≤ p := le_min (le_of_lt hlt) (by linarith)
    have hp0 : 0 ≤ p := le_trans h0 hpge
    by_cases hsw : (0.5 : ℚ) ≤ p ∧ u.current ≠ u.tTo
    · -- midpoint swap; the re-run effect is a no-op since requested = target
      have : (frameStep u d).1 =
          { u with progress := p, current := target,
                   matOpacity := u.matOpacity.map (fun _ => transitionOpacity p),
                   matTransparent :=
                     u.matTransparent.map (fun _ => decide (transitionOpacity p < 1)) } := by
        simp only [frameStep, hlt, if_true, ← hp]
        rw [if_pos ⟨hsw.1, hsw.2⟩]
        simp [runTransitionEffect, htTo, hreq]
      rw [this]
      exact ⟨hreq, htTo, htFrom, hp0, hple,
        fun hc => absurd hsw.1 (not_le.mpr hc), fun _ => rfl⟩
    · have : (frameStep u d).1 =
          { u with progress := p,
                   matOpacity := u.matOpacity.map (fun _ => transitionOpacity p),
                   matTransparent :=
                     u.matTransparent.map (fun _ => decide (transitionOpacity p < 1)) } := by
        simp only [frameStep, hlt, if_true, ← hp]
        rw [if_neg hsw]
      rw [this]
      refine ⟨hreq, htTo, htFrom, hp0, hple, ?_, ?_⟩
      · intro hc
        exact hlow (lt_of_le_of_lt hpge hc)
      · intro hc
        rcases not_and_or.mp hsw with h | h
        · exact absurd hc h
        · push_neg at h
          exact h.trans htTo
  · have : (frameStep u d).1 = u := by simp [frameStep, hlt]
    rw [this]
    exact ⟨hreq, htTo, htFrom, h0, h1, hlow, hhigh⟩

/-- A run of frames with non-negative elapsed times preserves the
mid-flight invariant. -/
lemma midflightInv_runFrames (mounted target : String) (u : ShoeModelState)
    (ds : List ℚ)
    (hds : ∀ d ∈ ds, 0 ≤ d) (hinv : MidflightInv mounted target u) :
    MidflightInv mounted target (runFrames u ds) := by
  induction ds generalizing u with
  | nil => exact hinv
  | cons d ds ih =>
      have hstep := midflightInv_frameStep mounted target u d
        (hds d (List.mem_cons_self d ds)) hinv
      exact ih (frameStep u d).1 (fun e he => hds e (List.mem_cons_of_mem d he)) hstep

/-- **C4.** While the transition target `to` is unchanged,
`TransitionState.progress` is monotonically non-decreasing across frames:
each frame with non-negative elapsed time advances it by `delta × 2`, capped
at 1; and whenever a silhouette different from the currently mounted one is
requested, `progress` is reset to exactly 0. -/
theorem transition_progress_monotone (s : ShoeModelState) (d : ℚ) (t : String)
    (hd : 0 ≤ d) (hp : s.progress ≤ 1) :
    ((frameStep s d).1.tTo = s.tTo →
        (frameStep s d).1.progress = min 1 (s.progress + d * 2)
      ∧ s.progress ≤ (frameStep s d).1.progress)
  ∧ (t ≠ s.current → (setShoeType s t).progress = 0) := by
  constructor
  · intro htTo
    have heq := frameStep_progress_eq s d hd hp htTo
    refine ⟨heq, ?_⟩
    rw [heq]
    exact le_min hp (by linarith)
  · intro ht
    simp [setShoeType, runTransitionEffect, ht]

/-- Witness for C4: a new silhouette request from a concrete mid-flight state
resets progress to 0. -/
theorem transition_progress_monotone_witness :
    (setShoeType
        { requested := "low-top", current := "low-top", progress := 0.3,
          tFrom := "low-top", tTo := "low-top",
          matOpacity := [1], matTransparent := [false] } "running").progress = 0 := by
  have h := transition_progress_monotone
    { requested := "low-top", current := "low-top", progress := 0.3,
      tFrom := "low-top", tTo := "low-top",
      matOpacity := [1], matTransparent := [false] } 0.05 "running"
    (by norm_num) (by norm_num)
  exact h.2 (by decide)

/-- **C5.** During a transition (`progress < 1` at frame entry), the opacity
written into the mounted group equals `1 − |progress − 0.5| × 2` of the
updated progress; this value is 0 at progress 0 and 1, and 1 at
progress 0.5. -/
theorem transition_opacity_triangular (s : ShoeModelState) (d : ℚ)
    (h : s.progress < 1) :
    (frameStep s d).2 =
      some (transitionOpacity (min 1 (s.progress + d * 2)),
        decide (transitionOpacity (min 1 (s.progress + d * 2)) < 1))
  ∧ (frameStep s d).1.matOpacity =
      s.matOpacity.map (fun _ => transitionOpacity (min 1 (s.progress + d * 2)))
  ∧ (∀ p : ℚ, transitionOpacity p = 1 - |p - 0.5| * 2)
  ∧ transitionOpacity 0 = 0
  ∧ transitionOpacity 1 = 0
  ∧ transitionOpacity 0.5 = 1 := by
  refine ⟨?_, ?_, fun p => rfl,
    by norm_num [transitionOpacity, abs_of_nonneg],
    by norm_num [transitionOpacity, abs_of_nonneg],
    by norm_num [transitionOpacity]⟩
  · simp [frameStep, h]
  · by_cases hsw : (0.5 : ℚ) ≤ min 1 (s.progress + d * 2) ∧ s.current ≠ s.tTo
    · simp only [frameStep, h, if_true, if_pos]
      rw [if_pos hsw]
      simp [runTransitionEffect]
      split <;> rfl
    · simp only [frameStep, h, if_true, if_pos]
      rw [if_neg hsw]

/-- **C3.** If the requested silhouette changes while a transition is
mid-flight (progress strictly between 0 and 0.5), the transition restarts
with `from` equal to the currently mounted silhouette and progress reset
to 0, and the mounted geometry set remains the currently mounted
silhouette's until the new cycle's progress reaches 0.5; at
progress ≥ 0.5 the mounted geometry is swapped to the new target, and at
progress ≥ 1 the state is `Stable(to)`. -/
theorem transition_midflight_restart (s : ShoeModelState) (s2 : String)
    (ds : List ℚ)
    (hmid1 : 0 < s.progress) (hmid2 : s.progress < 0.5)
    (hneq : s2 ≠ s.current) (hds : ∀ d ∈ ds, 0 ≤ d) :
    (setShoeType s s2).progress = 0
  ∧ (setShoeType s s2).tFrom = s.current
  ∧ (setShoeType s s2).tTo = s2
  ∧ (setShoeType s s2).current = s.current
  ∧ ((runFrames (setShoeType s s2) ds).progress < 0.5 →
        (runFrames (setShoeType s s2) ds).current = s.current)
  ∧ (0.5 ≤ (runFrames (setShoeType s s2) ds).progress →
        (runFrames (setShoeType s s2) ds).current = s2)
  ∧ (1 ≤ (runFrames (setShoeType s s2) ds).progress →
        StableAt (runFrames (setShoeType s s2) ds) s2) := by
  have hset : setShoeType s s2 =
      { s with requested := s2, progress := 0, tFrom := s.current, tTo := s2 } := by
    simp [setShoeType, runTransitionEffect, hneq]
  have hinv0 : MidflightInv s.current s2 (setShoeType s s2) := by
    rw [hset]
    exact ⟨rfl, rfl, rfl, le_refl 0, by norm_num, fun _ => rfl,
      fun hc => absurd hc (by norm_num)⟩
  have hrun := midflightInv_runFrames s.current s2 (setShoeType s s2) ds hds hinv0
  obtain ⟨hreq, htTo, htFrom, h0, h1, hlow, hhigh⟩ := hrun
  refine ⟨by rw [hset], by rw [hset], by rw [hset], by rw [hset], hlow, hhigh, ?_⟩
  intro hc
  exact ⟨hc, hhigh (by linarith), htTo⟩

/-- Witness for C3: a concrete mid-flight state at progress 0.3, requested
silhouette switched to `running`. -/
theorem transition_midflight_restart_witness :
    (setShoeType
        { requested := "low-top", current := "high-top", progress := 0.3,
          tFrom := "high-top", tTo := "low-top",
          matOpacity := [1], matTransparent := [false] } "running").progress = 0
  ∧ (setShoeType
        { requested := "low-top", current := "high-top", progress := 0.3,
          tFrom := "high-top", tTo := "low-top",
          matOpacity := [1], matTransparent := [false] } "running").tFrom
      = "high-top" := by
  have h := transition_midflight_restart
    { requested := "low-top", current := "high-top", progress := 0.3,
      tFrom := "high-top", tTo := "low-top",
      matOpacity := [1], matTransparent := [false] } "running" []
    (by norm_num) (by norm_num) (by decide) (by simp)
  exact ⟨h.1, h.2.1⟩

/-- **C10.** In the frame where a transition's progress reaches 1, the
update writes opacity 0 and `transparent = true` into every material of the
mounted group, and no later frame's transition logic writes opacity again
while no new transition has started; the shared materials therefore retain
opacity 0 after a completed transition until the next silhouette change
restarts the fade. -/
theorem transition_completion_opacity (s : ShoeModelState) (d : ℚ)
    (hreq : s.requested = s.tTo)
    (h1 : s.progress < 1) (h2 : 1 ≤ s.progress + d * 2) :
    (frameStep s d).2 = some (0, true)
  ∧ (frameStep s d).1.progress = 1
  ∧ (frameStep s d).1.matOpacity = s.matOpacity.map (fun _ => 0)
  ∧ (frameStep s d).1.matTransparent = s.matTransparent.map (fun _ => true)
  ∧ (∀ u : ShoeModelState, ∀ e : ℚ, ¬ u.progress < 1 → frameStep u e = (u, none))
  ∧ (∀ u : ShoeModelState, ∀ es : List ℚ, ¬ u.progress < 1 → runFrames u es = u) := by
  have hmin : min 1 (s.progress + d * 2) = 1 := min_eq_left h2
  have hop1 : transitionOpacity 1 = 0 := by
    norm_num [transitionOpacity, abs_of_nonneg]
  have hd1 : decide (transitionOpacity 1 < 1) = true := by
    rw [hop1]
    exact decide_eq_true (by norm_num)
  have hd0 : decide ((0 : ℚ) < 1) = true := decide_eq_true (by norm_num)
  have hfix : ∀ u : ShoeModelState, ∀ e : ℚ, ¬ u.progress < 1 →
      frameStep u e = (u, none) := by
    intro u e hu
    simp [frameStep, hu]
  have hrunfix : ∀ u : ShoeModelState, ∀ es : List ℚ, ¬ u.progress < 1 →
      runFrames u es = u := by
    intro u es hu
    induction es with
    | nil => rfl
    | cons e es ih =>
        have hstep : (frameStep u e).1 = u := by rw [hfix u e hu]
        calc runFrames u (e :: es) = runFrames (frameStep u e).1 es := rfl
          _ = runFrames u es := by rw [hstep]
          _ = u := ih
  by_cases hsw : s.current ≠ s.tTo
  · have hstep : frameStep s d =
        ({ s with
           progress := 1,
           current := s.tTo,
           matOpacity := s.matOpacity.map (fun _ => 0),
           matTransparent := s.matTransparent.map (fun _ => true) },
         some (0, true)) := by
      simp only [frameStep, h1, if_true, hmin, hop1, hd1]
      rw [if_pos ⟨by norm_num, hsw⟩]
      simp [runTransitionEffect, hreq, hop1, hd1]
    rw [hstep]
    exact ⟨rfl, rfl, rfl, rfl, hfix, hrunfix⟩
  · have hstep : frameStep s d =
        ({ s with
           progress := 1,
           matOpacity := s.matOpacity.map (fun _ => 0),
           matTransparent := s.matTransparent.map (fun _ => true) },
         some (0, true)) := by
      simp only [frameStep, h1, if_true, hmin, hop1, hd1, hd0]
      rw [if_neg (by
        intro hc
        exact hsw hc.2)]
    rw [hstep]
    exact ⟨rfl, rfl, rfl, rfl, hfix, hrunfix⟩

/-- Witness for C10: a completing frame from progress 0.6 with delta 0.25. -/
theorem transition_completion_opacity_witness :
    (frameStep
        { requested := "running", current := "running", progress := 0.6,
          tFrom := "high-top", tTo := "running",
          matOpacity := [1, 1], matTransparent := [false, false] } 0.25).2
      = some (0, true) := by
  exact (transition_completion_opacity
    { requested := "running", current := "running", progress := 0.6,
      tFrom := "high-top", tTo := "running",
      matOpacity := [1, 1], matTransparent := [false, false] } 0.25
    rfl (by norm_num) (by norm_num)).1

/-- Witness for C5: a frame from progress 0.3 with delta 0.1. -/
theorem transition_opacity_triangular_witness :
    (frameStep
        { requested := "running", current := "high-top", progress := 0.3,
          tFrom := "high-top", tTo := "running",
          matOpacity := [1], matTransparent := [false] } 0.1).2 =
      some (transitionOpacity (min 1 (0.3 + 0.1 * 2)),
        decide (transitionOpacity (min 1 (0.3 + 0.1 * 2)) < 1)) := by
  exact (transition_opacity_triangular
    { requested := "running", current := "high-top", progress := 0.3,
      tFrom := "high-top", tTo := "running",
      matOpacity := [1], matTransparent := [false] } 0.1 (by norm_num)).1

/-! ### Light-scan lemmas -/

/-- Characterization of the brightest-light fold: starting from a sound
accumulator, the fold returns a sound accumulator whose intensity bounds
every scanned light of the traversed list. -/
lemma scan_foldl_spec (ls : List SceneLight) : ∀ (m : ℚ) (b : Option SceneLight),
    0 ≤ m →
    (∀ lb, b = some lb →
        m = lb.intensity ∧ isScannedLight lb = true ∧ 0 < lb.intensity) →
    (∀ lb, (ls.foldl scanStep (m, b)).2 = some lb →
        (ls.foldl scanStep (m, b)).1 = lb.intensity ∧ isScannedLight lb = true
        ∧ 0 < lb.intensity ∧ (lb ∈ ls ∨ b = some lb))
    ∧ m ≤ (ls.foldl scanStep (m, b)).1
    ∧ (∀ l' ∈ ls, isScannedLight l' = true →
        l'.intensity ≤ (ls.foldl scanStep (m, b)).1) := by
  induction ls with
  | nil =>
      intro m b hm hb
      refine ⟨fun lb h => ?_, le_refl m, by simp⟩
      obtain ⟨h1, h2, h3⟩ := hb lb h
      exact ⟨h1, h2, h3, Or.inr h⟩
  | cons hd tl ih =>
      intro m b hm hb
      have hfold : (hd :: tl).foldl scanStep (m, b) = tl.foldl scanStep (scanStep (m, b) hd) := rfl
      by_cases hscan : isScannedLight hd = true
      · by_cases hgt : m < hd.intensity
        · have hstep : scanStep (m, b) hd = (hd.intensity, some hd) := by
            simp [scanStep, hscan, hgt]
          have hpos : 0 < hd.intensity := lt_of_le_of_lt hm hgt
          have := ih hd.intensity (some hd) (le_of_lt hpos)
            (fun lb hlb => by
              cases hlb
              exact ⟨rfl, hscan, hpos⟩)
          obtain ⟨hsel, hle, hmax⟩ := this
          rw [hfold, hstep]
          refine ⟨fun lb h => ?_, le_trans (le_of_lt hgt) hle, ?_⟩
          · obtain ⟨h1, h2, h3, h4⟩ := hsel lb h
            refine ⟨h1, h2, h3, Or.inl ?_⟩
            rcases h4 with h | h
            · exact List.mem_cons_of_mem hd h
            · cases h
              exact List.mem_cons_self hd tl
          · intro l' hl' hsc
            rcases List.mem_cons.mp hl' with h | h
            · subst h
              exact hle
            · exact hmax l' h hsc
        · have hstep : scanStep (m, b) hd = (m, b) := by
            simp [scanStep, hscan, hgt]
          have := ih m b hm hb
          obtain ⟨hsel, hle, hmax⟩ := this
          rw [hfold, hstep]
          refine ⟨fun lb h => ?_, hle, ?_⟩
          · obtain ⟨h1, h2, h3, h4⟩ := hsel lb h
            refine ⟨h1, h2, h3, ?_⟩
            rcases h4 with h | h
            · exact Or.inl (List.mem_cons_of_mem hd h)
            · exact Or.inr h
          · intro l' hl' hsc
            rcases List.mem_cons.mp hl' with h | h
            · subst h
              exact le_trans (not_lt.mp hgt) hle
            · exact hmax l' h hsc
      · have hstep : scanStep (m, b) hd = (m, b) := by
          simp [scanStep, hscan]
        have := ih m b hm hb
        obtain ⟨hsel, hle, hmax⟩ := this
        rw [hfold, hstep]
        refine ⟨fun lb h => ?_, hle, ?_⟩
        · obtain ⟨h1, h2, h3, h4⟩ := hsel lb h
          refine ⟨h1, h2, h3, ?_⟩
          rcases h4 with h | h
          · exact Or.inl (List.mem_cons_of_mem hd h)
          · exact Or.inr h
        · intro l' hl' hsc
          rcases List.mem_cons.mp hl' with h | h
          · subst h
            exact absurd hsc (by simp [hscan])
          · exact hmax l' h hsc

/-- When the scan selects a light, that light is a spot or directional light
of the scene, has positive intensity, and its intensity dominates all other
spot/directional lights. -/
lemma findBrightestLight_spec (lights : List SceneLight) (l : SceneLight)
    (h : findBrightestLight lights = some l) :
    l ∈ lights ∧ isScannedLight l = true ∧ 0 < l.intensity
  ∧ ∀ l' ∈ lights, isScannedLight l' = true → l'.intensity ≤ l.intensity := by
  obtain ⟨hsel, hle, hmax⟩ := scan_foldl_spec lights 0 none (le_refl 0)
    (fun lb hlb => by cases hlb)
  obtain ⟨h1, h2, h3, h4⟩ := hsel l h
  refine ⟨?_, h2, h3, ?_⟩
  · rcases h4 with hm | hm
    · exact hm
    · cases hm
  · intro l' hl' hsc
    exact le_of_le_of_eq (hmax l' hl' hsc) h1

/-- **C7 (counterexample).** The claim says the updater selects the light
with the highest intensity among all lights in the scene; but the scan only
considers spot and directional lights.  In a scene holding a point light of
intensity 10 at (1,1,1) and a spot light of intensity 1 at (2,2,2), the
claim's selection is the point light, while the code writes the spot
light's position (2,2,2) into `lightPosRef` and the shader uniforms. -/
theorem light_scan_skips_point_light :
    claimBrightestAnyLight
        [{ kind := .point, intensity := 10, position := ⟨1, 1, 1⟩ },
         { kind := .spot, intensity := 1, position := ⟨2, 2, 2⟩ }]
      = some { kind := .point, intensity := 10, position := ⟨1, 1, 1⟩ }
  ∧ (advancedShaderFrameUpdate ⟨5, 8, 5⟩ ⟨0, 0, 5⟩
        [{ kind := .point, intensity := 10, position := ⟨1, 1, 1⟩ },
         { kind := .spot, intensity := 1, position := ⟨2, 2, 2⟩ }]
        [createAnisotropicMaterial ⟨1, 1, 1⟩ {}]).1 = ⟨2, 2, 2⟩
  ∧ (advancedShaderFrameUpdate ⟨5, 8, 5⟩ ⟨0, 0, 5⟩
        [{ kind := .point, intensity := 10, position := ⟨1, 1, 1⟩ },
         { kind := .spot, intensity := 1, position := ⟨2, 2, 2⟩ }]
        [createAnisotropicMaterial ⟨1, 1, 1⟩ {}]).2.map
        ThreeMaterial.lightPositionUniform = [some ⟨2, 2, 2⟩]
  ∧ (⟨2, 2, 2⟩ : Vec3) ≠ ⟨1, 1, 1⟩ := by
  refine ⟨?_, ?_, ?_, by decide⟩ <;> rfl

/-- **C7 (amended).** Once per rendered frame, when advanced shaders are
enabled, the updater scans the spot and directional lights in the scene,
selects the one with the highest intensity (keeping the earlier one on
ties, and the previously cached position when none has positive intensity),
writes that light's world position into the `lightPosition` uniform of
every live custom-shader material that has one (anisotropic and subsurface;
the iridescent uniform map has no `lightPosition` entry), and writes the
camera's world position into every live custom-shader material's
`viewPosition` uniform. -/
theorem brightest_scanned_light_update (prev cam : Vec3)
    (lights : List SceneLight) (mats : List ThreeMaterial) (l : SceneLight)
    (hl : findBrightestLight lights = some l) :
    (l ∈ lights ∧ isScannedLight l = true ∧ 0 < l.intensity
      ∧ ∀ l' ∈ lights, isScannedLight l' = true → l'.intensity ≤ l.intensity)
  ∧ advancedShaderFrameUpdate prev cam lights mats
      = (l.position, mats.map (updateMaterialUniforms l.position cam))
  ∧ (∀ u : AnisotropicUniforms,
        updateMaterialUniforms l.position cam (.anisotropic u)
          = .anisotropic { u with lightPosition := l.position, viewPosition := cam })
  ∧ (∀ u : SubsurfaceUniforms,
        updateMaterialUniforms l.position cam (.subsurface u)
          = .subsurface { u with lightPosition := l.position, viewPosition := cam })
  ∧ (∀ u : IridescentUniforms,
        updateMaterialUniforms l.position cam (.iridescent u)
          = .iridescent { u with viewPosition := cam }
      ∧ (updateMaterialUniforms l.position cam (.iridescent u)).lightPositionUniform
          = none)
  ∧ (∀ p : StandardParams,
        updateMaterialUniforms l.position cam (.meshStandard p) = .meshStandard p)
  ∧ (findBrightestLight lights = none →
        advancedShaderFrameUpdate prev cam lights mats
          = (prev, mats.map (updateMaterialUniforms prev cam))) := by
  refine ⟨findBrightestLight_spec lights l hl, ?_, fun u => rfl, fun u => rfl,
    fun u => ⟨rfl, rfl⟩, fun p => rfl, ?_⟩
  · simp [advancedShaderFrameUpdate, hl]
  · intro hnone
    simp [advancedShaderFrameUpdate, hnone]

/-- Witness for the amended C7 at a one-spot-light scene. -/
theorem brightest_scanned_light_update_witness :
    advancedShaderFrameUpdate ⟨5, 8, 5⟩ ⟨0, 0, 5⟩
        [{ kind := .spot, intensity := 2, position := ⟨3, 4, 5⟩ }]
        []
      = (⟨3, 4, 5⟩, ([] : List ThreeMaterial)) := by
  have h := brightest_scanned_light_update ⟨5, 8, 5⟩ ⟨0, 0, 5⟩
    [{ kind := .spot, intensity := 2, position := ⟨3, 4, 5⟩ }] []
    { kind := .spot, intensity := 2, position := ⟨3, 4, 5⟩ } rfl
  exact h.2.1

/-! ### Shader lemmas -/

/-- `glslClamp` lands in `[lo, hi]` whenever `lo ≤ hi`. -/
lemma glslClamp_bounds (x lo hi : ℚ) (h : lo ≤ hi) :
    lo ≤ glslClamp x lo hi ∧ glslClamp x lo hi ≤ hi :=
  ⟨le_min (le_max_right x lo) h, min_le_right _ _⟩

/-- Every component of `glslClampVec v lo hi` lands in `[lo, hi]`. -/
lemma glslClampVec_bounds (v : Vec3) (lo hi : ℚ) (h : lo ≤ hi) :
    (lo ≤ (glslClampVec v lo hi).x ∧ (glslClampVec v lo hi).x ≤ hi)
  ∧ (lo ≤ (glslClampVec v lo hi).y ∧ (glslClampVec v lo hi).y ≤ hi)
  ∧ (lo ≤ (glslClampVec v lo hi).z ∧ (glslClampVec v lo hi).z ≤ hi) :=
  ⟨glslClamp_bounds v.x lo hi h, glslClamp_bounds v.y lo hi h,
   glslClamp_bounds v.z lo hi h⟩

/-- **C9.** For every fragment input of the anisotropic shader (and every
implementation of the GLSL numeric primitives): if the interpolated tangent
or bitangent carries a NaN component, the shader outputs the flat half-lit
color `baseColor × 0.5` with alpha 1 and performs no further lighting
computation; otherwise the GGX denominator is guarded (the distribution
returns 0 when the squared norm of its internal vector is below 0.0001),
the specular term is clamped to at most 10, and every channel of the final
color lies in [0, 1.5]. -/
theorem anisotropic_fragment_safety (g : GlslPrims) (u : AnisotropicUniforms)
    (inp : AnisoVaryings) :
    ((inp.vWorldTangent = none ∨ inp.vWorldBitangent = none) →
        anisotropicFragMain g u inp = (Vec3.smul 0.5 u.baseColor, 1))
  ∧ (∀ ndoth hdotx hdoty ax ay : ℚ,
        Vec3.dot ⟨ay * hdotx, ax * hdoty, ax * ay * ndoth⟩
            ⟨ay * hdotx, ax * hdoty, ax * ay * ndoth⟩ < 0.0001 →
        anisotropicGGX ndoth hdotx hdoty ax ay = 0)
  ∧ (∀ pos n t b : Vec3, (anisotropicShadeLit g u pos n t b).1 ≤ 10)
  ∧ (∀ t b, inp.vWorldTangent = some t → inp.vWorldBitangent = some b →
        (0 ≤ (anisotropicFragMain g u inp).1.x
          ∧ (anisotropicFragMain g u inp).1.x ≤ 1.5)
      ∧ (0 ≤ (anisotropicFragMain g u inp).1.y
          ∧ (anisotropicFragMain g u inp).1.y ≤ 1.5)
      ∧ (0 ≤ (anisotropicFragMain g u inp).1.z
          ∧ (anisotropicFragMain g u inp).1.z ≤ 1.5)
      ∧ (anisotropicFragMain g u inp).2 = 1) := by
  refine ⟨?_, ?_, ?_, ?_⟩
  · intro h
    rcases h with h | h
    · cases hB : inp.vWorldBitangent <;>
        simp [anisotropicFragMain, h, hB]
    · cases hT : inp.vWorldTangent <;>
        simp [anisotropicFragMain, h, hT]
  · intro ndoth hdotx hdoty ax ay h
    simp [anisotropicGGX, h]
  · intro pos n t b
    exact min_le_right _ _
  · intro t b hT hB
    have hfr : anisotropicFragMain g u inp =
        ((anisotropicShadeLit g u inp.vWorldPosition
            (glslNormalize g inp.vWorldNormal)
            (glslNormalize g t) (glslNormalize g b)).2, 1) := by
      simp [anisotropicFragMain, hT, hB]
    obtain ⟨fc, hfc⟩ : ∃ fc,
        (anisotropicShadeLit g u inp.vWorldPosition
            (glslNormalize g inp.vWorldNormal)
            (glslNormalize g t) (glslNormalize g b)).2
          = glslClampVec fc 0 1.5 := ⟨_, rfl⟩
    have hb := glslClampVec_bounds fc 0 1.5 (by norm_num)
    rw [hfr, hfc]
    exact ⟨hb.1, hb.2.1, hb.2.2, rfl⟩

/-- Witness for C9: a NaN-marked tangent at a concrete fragment yields the
flat fallback color. -/
theorem anisotropic_fragment_safety_witness :
    anisotropicFragMain
        { sqrt := fun q => q, cos := fun q => q, sin := fun q => q }
        { baseColor := ⟨1, 0, 0⟩, specularColor := ⟨1, 1, 1⟩,
          roughnessX := 0.4, roughnessY := 0.6, specularIntensity := 0.5,
          lightPosition := ⟨5, 8, 5⟩, viewPosition := ⟨0, 0, 5⟩,
          anisotropicRotation := 0.25 }
        { vWorldNormal := ⟨0, 0, 1⟩, vWorldTangent := none,
          vWorldBitangent := some ⟨0, 1, 0⟩, vWorldPosition := ⟨0, 0, 0⟩,
          vUv := (0, 0) }
      = (Vec3.smul 0.5 ⟨1, 0, 0⟩, 1) := by
  exact (anisotropic_fragment_safety
    { sqrt := fun q => q, cos := fun q => q, sin := fun q => q }
    { baseColor := ⟨1, 0, 0⟩, specularColor := ⟨1, 1, 1⟩,
      roughnessX := 0.4, roughnessY := 0.6, specularIntensity := 0.5,
      lightPosition := ⟨5, 8, 5⟩, viewPosition := ⟨0, 0, 5⟩,
      anisotropicRotation := 0.25 }
    { vWorldNormal := ⟨0, 0, 1⟩, vWorldTangent := none,
      vWorldBitangent := some ⟨0, 1, 0⟩, vWorldPosition := ⟨0, 0, 0⟩,
      vUv := (0, 0) }).1 (Or.inl rfl)

end LuxSole
